import Mathlib

/-!
Shallow embedding of the owl-framework essay-generation entry points:
the CLI script src/examples/scientific_essay_generator.py and the web
entry point src/owl/webapp_essay.py. Pure string computations are
embedded as Lean functions over String and List Char; external effects
(environment mutation, society construction, orchestration, file
writes) are recorded as explicit event traces, and the process
environment and the output files are modelled as association lists.
Python string indexing is by code points, so Python strings are
embedded through String.data (a list of characters); the alphanumeric
test c.isalnum() is embedded by Char.isAlphanum, faithful on the ASCII
inputs the specification discusses.
-/

/-- Embedding of the Python expression s.endswith(post): code-point level
suffix test, used at scientific_essay_generator.py line 171. -/
def str_endswith (s post : String) : Bool :=
  post.data.isSuffixOf s.data

/-- Word-count computation of construct_scientific_essay_society,
scientific_essay_generator.py line 56: word_count = pages * 500. -/
def word_count (pages : Int) : Int :=
  pages * 500

/-- Task prompt built by construct_scientific_essay_society,
scientific_essay_generator.py lines 103 to 111. Each string literal below is
one adjacent f-string fragment of the source; the interpolated values are
topic, word_count, pages and instructions. -/
def task_prompt (topic : String) (pages : Int) (instructions : String) : String :=
  "I need a comprehensive scientific essay on the topic: \x27" ++ topic ++ "\x27. " ++
  "The essay should be approximately " ++ toString (word_count pages) ++ " words (about " ++ toString pages ++ " pages). " ++
  "Additional requirements: " ++ instructions ++ ". " ++
  "The essay should follow proper academic structure with an abstract, introduction, " ++
  "methodology/literature review, discussion, conclusion, and references. " ++
  "Use recent scientific research and cite sources properly in a standard academic format. " ++
  "When complete, save the essay as a Markdown file."

/-- Topic sanitization shared by both entry points
(scientific_essay_generator.py line 167, webapp_essay.py line 74):
safe_topic is the join of (c if c.isalnum() else underscore) over the topic. -/
def safe_topic (topic : String) : String :=
  String.mk (topic.data.map (fun c => if c.isAlphanum then c else '_'))

/-- Auto-generated CLI output filename, scientific_essay_generator.py line 168. -/
def cli_auto_filename (topic : String) : String :=
  "./essays/scientific_essay_" ++ safe_topic topic ++ ".md"

/-- CLI output filename resolution, scientific_essay_generator.py lines
165 to 172: when the output argument is absent the name is derived from the
topic, otherwise the explicit name is joined under ./essays/ and .md is
appended when the resulting path does not already end in .md. -/
def cli_output_filename (output : Option String) (topic : String) : String :=
  match output with
  | none => cli_auto_filename topic
  | some name =>
    let f := "./essays/" ++ name
    if str_endswith f ".md" then f else f ++ ".md"

/-- Broken-down local time at second precision, the data formatted by
time.strftime in webapp_essay.py line 75. -/
structure Tm where
  year : Nat
  month : Nat
  day : Nat
  hour : Nat
  minute : Nat
  second : Nat
deriving DecidableEq

/-- Two-digit zero-padded decimal field, the strftime directives
such as the month, day, hour, minute and second fields. -/
def pad2 (n : Nat) : String :=
  String.mk [Nat.digitChar (n / 10), Nat.digitChar (n % 10)]

/-- Four-digit zero-padded decimal field, the strftime year directive. -/
def pad4 (n : Nat) : String :=
  String.mk [Nat.digitChar (n / 1000), Nat.digitChar (n / 100 % 10),
    Nat.digitChar (n / 10 % 10), Nat.digitChar (n % 10)]

/-- Embedding of time.strftime applied to the format of
webapp_essay.py line 75: year, month, day, underscore, hour, minute, second,
each zero padded. -/
def strftime_ts (t : Tm) : String :=
  pad4 t.year ++ pad2 t.month ++ pad2 t.day ++ "_" ++ pad2 t.hour ++ pad2 t.minute ++ pad2 t.second

/-- Field bounds under which the strftime fields occupy exactly their padded
widths; every real broken-down time satisfies these generous bounds. -/
def validTm (t : Tm) : Prop :=
  t.year < 10000 ∧ t.month < 100 ∧ t.day < 100 ∧ t.hour < 100 ∧ t.minute < 100 ∧ t.second < 100

instance : DecidablePred validTm := fun t => by unfold validTm; infer_instance

/-- Web output filename, webapp_essay.py lines 74 to 76. -/
def webapp_output_filename (topic : String) (t : Tm) : String :=
  "scientific_essay_" ++ safe_topic topic ++ "_" ++ strftime_ts t ++ ".md"

/-- Full web output path, webapp_essay.py line 77: the essays directory
joined with the output filename. -/
def webapp_full_path (essaysDir topic : String) (t : Tm) : String :=
  essaysDir ++ "/" ++ webapp_output_filename topic t

/-- Association-list store modelling the process environment and the set of
written files; the most recent binding of a key shadows older ones. -/
abbrev Store := List (String × String)

/-- Lookup of the most recent binding of a key. -/
def store_get : Store → String → Option String
  | [], _ => none
  | (k, v) :: rest, key => if k = key then some v else store_get rest key

/-- Binding update: a write to a path or an environment variable installs a
new binding that shadows any previous one. -/
def store_set (s : Store) (key val : String) : Store :=
  (key, val) :: s

/-- Filesystem state for directory creation: the directories that exist and
the directories the process has permission to create. -/
structure FS where
  dirs : List String
  creatable : List String

/-- Embedding of pathlib Path.mkdir with exist_ok set to True, modelled from
its documented contract: an existing directory is accepted unchanged, an
absent creatable directory is created, and otherwise an IOError-class error
is raised. The callers at scientific_essay_generator.py line 149 and
webapp_essay.py line 35 invoke it with no exception handler, so the error
propagates to the caller unrecovered. -/
def mkdir_exist_ok (fs : FS) (d : String) : Except String FS :=
  if d ∈ fs.dirs then Except.ok fs
  else if d ∈ fs.creatable then Except.ok ⟨d :: fs.dirs, fs.creatable⟩
  else Except.error "IOError"

/-- Directory preparation of the CLI entry point,
scientific_essay_generator.py line 149. -/
def cli_ensure_essays_dir (fs : FS) : Except String FS :=
  mkdir_exist_ok fs "./essays"

/-- Directory preparation of the web entry point, webapp_essay.py
lines 34 and 35. -/
def webapp_ensure_essays_dir (fs : FS) (essaysDir : String) : Except String FS :=
  mkdir_exist_ok fs essaysDir

/-- Externally visible effects of the entry points, in program order:
environment mutation, society construction, the orchestration call, and the
file write. -/
inductive Ev where
  | envSet (key val : String)
  | constructSociety (taskPrompt : String)
  | runSociety (taskPrompt : String)
  | fileWrite (path content : String)
deriving DecidableEq

/-- Embedding of generate_essay, webapp_essay.py lines 37 to 86, against an
abstract orchestrator returning the generated text and the token count. The
returned event list records, in source order: the unconditional assignment to
the OPENAI_API_KEY environment variable (line 51), the society construction
(lines 58 to 62), the orchestration call (line 68), and the verbatim file
write (lines 80 and 81). -/
def generate_essay (essaysDir api_key topic : String) (pages : Int) (instructions : String)
    (t : Tm) (orch : String → String × Nat) : (String × String × Nat) × List Ev :=
  let prompt := task_prompt topic pages instructions
  let answer := (orch prompt).1
  let token_count := (orch prompt).2
  let full_path := webapp_full_path essaysDir topic t
  ((answer, full_path, token_count),
    [Ev.envSet "OPENAI_API_KEY" api_key,
     Ev.constructSociety prompt,
     Ev.runSociety prompt,
     Ev.fileWrite full_path answer])

/-- Embedding of the on_generate handler, webapp_essay.py lines 146 to 160:
a falsy (empty) api_key or topic is rejected with an inline message and an
empty effect trace; otherwise generate_essay runs. Python truthiness of a
string is emptiness, embedded as equality with the empty string. -/
def on_generate (essaysDir api_key topic : String) (pages : Int) (instructions : String)
    (t : Tm) (orch : String → String × Nat) : (String × String × Nat) × List Ev :=
  if api_key = "" then (("Please enter your OpenAI API key", "", 0), [])
  else if topic = "" then (("Please enter a topic for your essay", "", 0), [])
  else generate_essay essaysDir api_key topic pages instructions t orch

/-- Embedding of the tail of the CLI main, scientific_essay_generator.py
lines 151 to 176: build the society from the arguments, run the
orchestration, resolve the output filename, and write the answer verbatim.
Returns the updated file store, the resolved filename and the token count. -/
def cli_main_run (output : Option String) (topic : String) (pages : Int) (instructions : String)
    (orch : String → String × Nat) (files : Store) : Store × String × Nat :=
  let answer := (orch (task_prompt topic pages instructions)).1
  let token_count := (orch (task_prompt topic pages instructions)).2
  let output_filename := cli_output_filename output topic
  (store_set files output_filename answer, output_filename, token_count)

/-- Replay of the environment mutations of an event trace over an initial
environment. -/
def run_env_events (env : Store) : List Ev → Store
  | [] => env
  | Ev.envSet k v :: rest => run_env_events (store_set env k v) rest
  | Ev.constructSociety _ :: rest => run_env_events env rest
  | Ev.runSociety _ :: rest => run_env_events env rest
  | Ev.fileWrite _ _ :: rest => run_env_events env rest

/-! Helper lemmas shared by the claim theorems. -/

theorem string_data_mk (l : List Char) : (String.mk l).data = l := rfl

theorem underscore_data : ("_" : String).data = ['_'] := rfl

/-- Appending the explicit name under the essays directory does not change
whether the path ends in the Markdown extension: the fixed directory part
cannot contribute to a three-character suffix ending in .md. -/
theorem endswith_bridge (name : String) :
    str_endswith ("./essays/" ++ name) ".md" = str_endswith name ".md" := by
  have h1 : ("./essays/" ++ name).data = ['.', '/', 'e', 's', 's', 'a', 'y', 's', '/'] ++ name.data := by
    rw [String.data_append]
  have h2 : ".md".data = ['.', 'm', 'd'] := rfl
  simp only [str_endswith, h1, h2]
  rw [Bool.eq_iff_iff]
  simp only [List.isSuffixOf_iff_suffix]
  constructor
  · intro h
    simp only [List.cons_append, List.suffix_cons_iff, List.cons.injEq] at h
    simpa using h
  · intro h
    exact h.trans (List.suffix_append _ _)

theorem digitChar_inj : ∀ a < 10, ∀ b < 10, Nat.digitChar a = Nat.digitChar b → a = b := by
  decide

theorem pad2_inj {n m : Nat} (hn : n < 100) (hm : m < 100) (h : pad2 n = pad2 m) : n = m := by
  unfold pad2 at h
  injection h with h
  simp only [List.cons.injEq, and_true] at h
  have e1 := digitChar_inj (n / 10) (by omega) (m / 10) (by omega) h.1
  have e2 := digitChar_inj (n % 10) (by omega) (m % 10) (by omega) h.2
  omega

theorem pad4_inj {n m : Nat} (hn : n < 10000) (hm : m < 10000) (h : pad4 n = pad4 m) : n = m := by
  unfold pad4 at h
  injection h with h
  simp only [List.cons.injEq, and_true] at h
  have e1 := digitChar_inj (n / 1000) (by omega) (m / 1000) (by omega) h.1
  have e2 := digitChar_inj (n / 100 % 10) (by omega) (m / 100 % 10) (by omega) h.2.1
  have e3 := digitChar_inj (n / 10 % 10) (by omega) (m / 10 % 10) (by omega) h.2.2.1
  have e4 := digitChar_inj (n % 10) (by omega) (m % 10) (by omega) h.2.2.2
  omega

/-- Injectivity of the strftime timestamp on broken-down times within the
padded field widths. -/
theorem strftime_ts_inj : ∀ t1 t2 : Tm, validTm t1 → validTm t2 →
    strftime_ts t1 = strftime_ts t2 → t1 = t2 := by
  intro ⟨y1, mo1, d1, hh1, mi1, s1⟩ ⟨y2, mo2, d2, hh2, mi2, s2⟩ hv1 hv2 h
  simp only [validTm] at hv1 hv2
  obtain ⟨by1, bmo1, bd1, bh1, bmi1, bs1⟩ := hv1
  obtain ⟨by2, bmo2, bd2, bh2, bmi2, bs2⟩ := hv2
  have hd := congrArg String.data h
  simp only [strftime_ts, pad4, pad2, String.data_append, string_data_mk, underscore_data,
    List.cons_append, List.nil_append, List.cons.injEq, eq_self_iff_true, and_true,
    true_and] at hd
  obtain ⟨e1, e2, e3, e4, e5, e6, e7, e8, e9, e10, e11, e12, e13, e14⟩ := hd
  have f1 := digitChar_inj (y1 / 1000) (by omega) (y2 / 1000) (by omega) e1
  have f2 := digitChar_inj (y1 / 100 % 10) (by omega) (y2 / 100 % 10) (by omega) e2
  have f3 := digitChar_inj (y1 / 10 % 10) (by omega) (y2 / 10 % 10) (by omega) e3
  have f4 := digitChar_inj (y1 % 10) (by omega) (y2 % 10) (by omega) e4
  have f5 := digitChar_inj (mo1 / 10) (by omega) (mo2 / 10) (by omega) e5
  have f6 := digitChar_inj (mo1 % 10) (by omega) (mo2 % 10) (by omega) e6
  have f7 := digitChar_inj (d1 / 10) (by omega) (d2 / 10) (by omega) e7
  have f8 := digitChar_inj (d1 % 10) (by omega) (d2 % 10) (by omega) e8
  have f9 := digitChar_inj (hh1 / 10) (by omega) (hh2 / 10) (by omega) e9
  have f10 := digitChar_inj (hh1 % 10) (by omega) (hh2 % 10) (by omega) e10
  have f11 := digitChar_inj (mi1 / 10) (by omega) (mi2 / 10) (by omega) e11
  have f12 := digitChar_inj (mi1 % 10) (by omega) (mi2 % 10) (by omega) e12
  have f13 := digitChar_inj (s1 / 10) (by omega) (s2 / 10) (by omega) e13
  have f14 := digitChar_inj (s1 % 10) (by omega) (s2 % 10) (by omega) e14
  simp only [Tm.mk.injEq]
  exact ⟨by omega, by omega, by omega, by omega, by omega, by omega⟩

/-! Claim theorems. -/

/-- C1: for every positive integer pages and every topic and instructions
string, the task prompt produced by construct_scientific_essay_society
contains the literal value pages * 500 as the word-count target, states the
page count, names the topic verbatim, and embeds the instructions verbatim. -/
theorem c1_prompt_embeds_fields (topic : String) (pages : Int) (instructions : String)
    (hpages : 1 ≤ pages) :
    ∃ s1 s2 s3 s4 s5 : String,
      task_prompt topic pages instructions =
        s1 ++ topic ++ s2 ++ toString (pages * 500) ++ s3 ++ toString pages ++ s4 ++
          instructions ++ s5 := by
  refine ⟨"I need a comprehensive scientific essay on the topic: \x27",
    "\x27. " ++ "The essay should be approximately ",
    " words (about ",
    " pages). " ++ "Additional requirements: ",
    ". " ++ "The essay should follow proper academic structure with an abstract, introduction, " ++
      "methodology/literature review, discussion, conclusion, and references. " ++
      "Use recent scientific research and cite sources properly in a standard academic format. " ++
      "When complete, save the essay as a Markdown file.", ?_⟩
  simp [task_prompt, word_count, String.append_assoc]

/-- Witness for C1 at topic Dark Matter, pages 3, concrete instructions. -/
theorem c1_witness :
    (1 : Int) ≤ 3 ∧
    ∃ s1 s2 s3 s4 s5 : String,
      task_prompt "Dark Matter" 3 "cite well" =
        s1 ++ "Dark Matter" ++ s2 ++ toString ((3 : Int) * 500) ++ s3 ++ toString (3 : Int) ++ s4 ++
          "cite well" ++ s5 :=
  ⟨by decide, c1_prompt_embeds_fields "Dark Matter" 3 "cite well" (by decide)⟩

/-- C3: with no explicit output name the CLI output path is derived by
replacing every non-alphanumeric character of the topic by an underscore;
in particular the topic Quantum Computing with a trailing exclamation mark
resolves to ./essays/scientific_essay_Quantum_Computing_.md, with the space
and the exclamation mark each becoming an underscore. -/
theorem c3_auto_path_sanitizes (topic : String) (i : Nat) (hi : i < topic.data.length) :
    cli_output_filename none "Quantum Computing!" =
      "./essays/scientific_essay_Quantum_Computing_.md"
    ∧ (safe_topic topic).data[i]? =
        some (if topic.data[i].isAlphanum then topic.data[i] else '_') := by
  constructor
  · rfl
  · rw [safe_topic, string_data_mk, List.getElem?_map, List.getElem?_eq_getElem hi,
      Option.map_some']

/-- Witness for C3: the concrete resolution together with position 1 of the
topic consisting of one letter and one exclamation mark. -/
theorem c3_witness :
    cli_output_filename none "Quantum Computing!" =
      "./essays/scientific_essay_Quantum_Computing_.md"
    ∧ (safe_topic "a!").data[1]? =
        some (if ("a!".data.get ⟨1, by decide⟩).isAlphanum then "a!".data.get ⟨1, by decide⟩
          else '_') :=
  ⟨(c3_auto_path_sanitizes "a!" 1 (by decide)).1, (c3_auto_path_sanitizes "a!" 1 (by decide)).2⟩

/-- C4: with an explicit output name the CLI resolves to that name joined
under the essays directory, appending the .md extension exactly when the name
does not already end in .md; the names report and report.md both resolve to
./essays/report.md with no double extension. -/
theorem c4_explicit_name (name topic : String) :
    cli_output_filename (some "report") "x" = "./essays/report.md"
    ∧ cli_output_filename (some "report.md") "x" = "./essays/report.md"
    ∧ (str_endswith name ".md" = true →
        cli_output_filename (some name) topic = "./essays/" ++ name)
    ∧ (str_endswith name ".md" = false →
        cli_output_filename (some name) topic = ("./essays/" ++ name) ++ ".md") := by
  refine ⟨rfl, rfl, ?_, ?_⟩ <;> intro h <;>
    simp [cli_output_filename, endswith_bridge, h]

/-- Witness for C4 at an explicit name with the extension and one without. -/
theorem c4_witness :
    cli_output_filename (some "notes.md") "x" = "./essays/" ++ "notes.md"
    ∧ cli_output_filename (some "notes") "x" = ("./essays/" ++ "notes") ++ ".md" :=
  ⟨(c4_explicit_name "notes.md" "x").2.2.1 (by decide),
   (c4_explicit_name "notes" "x").2.2.2 (by decide)⟩

/-- C6: the task composition is deterministic and side-effect free; two
invocations with identical topic, pages and instructions produce identical
prompt text. -/
theorem c6_prompt_deterministic (topic1 topic2 : String) (pages1 pages2 : Int)
    (instructions1 instructions2 : String) (ht : topic1 = topic2) (hp : pages1 = pages2)
    (hi : instructions1 = instructions2) :
    task_prompt topic1 pages1 instructions1 = task_prompt topic2 pages2 instructions2 := by
  subst ht
  subst hp
  subst hi
  rfl

/-- Witness for C6 at a concrete pair of identical invocations. -/
theorem c6_witness :
    task_prompt "Gravity" 2 "short" = task_prompt "Gravity" 2 "short" :=
  c6_prompt_deterministic "Gravity" "Gravity" 2 2 "short" "short" rfl rfl rfl

/-- C2 counterexample: a whitespace-only topic (and likewise a page count
below one) is not rejected; the handler proceeds all the way to the external
orchestration call, so no InvalidRequest failure is reported beforehand. -/
theorem c2_counterexample :
    (" " : String) ≠ ""
    ∧ (" " : String).data.all (fun c => c.isWhitespace) = true
    ∧ Ev.runSociety (task_prompt " " 5 "extra") ∈
        (on_generate "essays" "sk-key" " " 5 "extra" ⟨2026, 10, 12, 0, 0, 0⟩
          (fun _ => ("essay text", 1))).2
    ∧ Ev.runSociety (task_prompt "Black Holes" 0 "extra") ∈
        (on_generate "essays" "sk-key" "Black Holes" 0 "extra" ⟨2026, 10, 12, 0, 0, 0⟩
          (fun _ => ("essay text", 1))).2 := by
  refine ⟨by decide, by decide, ?_, ?_⟩ <;> simp [on_generate, generate_essay]

/-- C2 amended: the task composition itself performs no validation; the web
handler rejects exactly an empty API key or an empty topic with an inline
message and no external call, while whitespace-only topics and page counts
below one proceed to the external orchestration call. -/
theorem c2_amended_validation (essaysDir api_key topic : String) (pages : Int)
    (instructions : String) (t : Tm) (orch : String → String × Nat) :
    (api_key = "" ∨ topic = "" →
      (on_generate essaysDir api_key topic pages instructions t orch).2 = [])
    ∧ (api_key ≠ "" → topic ≠ "" →
        Ev.runSociety (task_prompt topic pages instructions) ∈
          (on_generate essaysDir api_key topic pages instructions t orch).2) := by
  constructor
  · intro h
    rcases h with h | h
    · subst h
      simp [on_generate]
    · subst h
      by_cases hk : api_key = "" <;> simp [on_generate, hk]
  · intro hk ht
    simp [on_generate, hk, ht, generate_essay]

/-- Witness for the amended C2: an empty topic is rejected with no external
call, and a nonempty topic with a nonempty key reaches the orchestration. -/
theorem c2_amended_witness :
    (on_generate "essays" "sk-key" "" 5 "i" ⟨2026, 10, 12, 0, 0, 0⟩
      (fun _ => ("e", 1))).2 = []
    ∧ Ev.runSociety (task_prompt "Gravity" 5 "i") ∈
        (on_generate "essays" "sk-key" "Gravity" 5 "i" ⟨2026, 10, 12, 0, 0, 0⟩
          (fun _ => ("e", 1))).2 :=
  ⟨(c2_amended_validation "essays" "sk-key" "" 5 "i" ⟨2026, 10, 12, 0, 0, 0⟩
      (fun _ => ("e", 1))).1 (Or.inr rfl),
   (c2_amended_validation "essays" "sk-key" "Gravity" 5 "i" ⟨2026, 10, 12, 0, 0, 0⟩
      (fun _ => ("e", 1))).2 (by decide) (by decide)⟩

/-- C5: with timestamping in effect, two path resolutions with the same topic
at broken-down times that differ at second precision yield distinct paths. -/
theorem c5_timestamp_distinct (essaysDir topic : String) (t1 t2 : Tm)
    (h1 : validTm t1) (h2 : validTm t2) (hne : t1 ≠ t2) :
    webapp_full_path essaysDir topic t1 ≠ webapp_full_path essaysDir topic t2 := by
  intro h
  apply hne
  apply strftime_ts_inj t1 t2 h1 h2
  have hd := congrArg String.data h
  simp only [webapp_full_path, webapp_output_filename, String.data_append,
    List.append_assoc] at hd
  have h3 := List.append_cancel_left (List.append_cancel_left (List.append_cancel_left
    (List.append_cancel_left (List.append_cancel_left hd))))
  exact String.ext (List.append_cancel_right h3)

/-- Witness for C5 at two times one second apart. -/
theorem c5_witness :
    webapp_full_path "essays" "x" ⟨2026, 10, 12, 9, 30, 0⟩ ≠
      webapp_full_path "essays" "x" ⟨2026, 10, 12, 9, 30, 1⟩ :=
  c5_timestamp_distinct "essays" "x" ⟨2026, 10, 12, 9, 30, 0⟩ ⟨2026, 10, 12, 9, 30, 1⟩
    (by decide) (by decide) (by decide)

/-- C7: directory preparation creates the essays directory when absent, is
idempotent when it already exists, and propagates an IOError-class error
unrecovered when the directory cannot be created, in both entry points. -/
theorem c7_mkdir_idempotent (fs : FS) (essaysDir : String) :
    ("./essays" ∈ fs.dirs → cli_ensure_essays_dir fs = Except.ok fs)
    ∧ ("./essays" ∉ fs.dirs → "./essays" ∈ fs.creatable →
        cli_ensure_essays_dir fs = Except.ok ⟨"./essays" :: fs.dirs, fs.creatable⟩)
    ∧ ("./essays" ∉ fs.dirs → "./essays" ∉ fs.creatable →
        cli_ensure_essays_dir fs = Except.error "IOError")
    ∧ (essaysDir ∈ fs.dirs → webapp_ensure_essays_dir fs essaysDir = Except.ok fs)
    ∧ (essaysDir ∉ fs.dirs → essaysDir ∈ fs.creatable →
        webapp_ensure_essays_dir fs essaysDir = Except.ok ⟨essaysDir :: fs.dirs, fs.creatable⟩)
    ∧ (essaysDir ∉ fs.dirs → essaysDir ∉ fs.creatable →
        webapp_ensure_essays_dir fs essaysDir = Except.error "IOError") := by
  refine ⟨?_, ?_, ?_, ?_, ?_, ?_⟩ <;> intros <;>
    simp_all [cli_ensure_essays_dir, webapp_ensure_essays_dir, mkdir_exist_ok]

/-- Witness for C7: the three outcomes at concrete filesystem states. -/
theorem c7_witness :
    cli_ensure_essays_dir ⟨["./essays"], []⟩ = Except.ok ⟨["./essays"], []⟩
    ∧ cli_ensure_essays_dir ⟨[], ["./essays"]⟩ = Except.ok ⟨["./essays"], ["./essays"]⟩
    ∧ cli_ensure_essays_dir ⟨[], []⟩ = Except.error "IOError" :=
  ⟨(c7_mkdir_idempotent ⟨["./essays"], []⟩ "d").1 (by decide),
   (c7_mkdir_idempotent ⟨[], ["./essays"]⟩ "d").2.1 (by decide) (by decide),
   (c7_mkdir_idempotent ⟨[], []⟩ "d").2.2.1 (by decide) (by decide)⟩

/-- C8: both entry points persist the orchestrator output verbatim: the
content stored at the resolved output path is exactly the generated text. -/
theorem c8_persist_verbatim (output : Option String) (essaysDir api_key topic : String)
    (pages : Int) (instructions : String) (t : Tm) (orch : String → String × Nat)
    (files : Store) :
    store_get (cli_main_run output topic pages instructions orch files).1
        (cli_output_filename output topic)
      = some (orch (task_prompt topic pages instructions)).1
    ∧ Ev.fileWrite (webapp_full_path essaysDir topic t)
        (orch (task_prompt topic pages instructions)).1
      ∈ (generate_essay essaysDir api_key topic pages instructions t orch).2 := by
  constructor
  · simp [cli_main_run, store_set, store_get]
  · simp [generate_essay]

/-- C9: with no explicit output name the CLI path is a function of the topic
alone with no timestamp component; two runs with the same topic resolve to
the identical path and the second write overwrites the first. -/
theorem c9_cli_overwrites (topic instructions1 instructions2 : String) (pages1 pages2 : Int)
    (orch1 orch2 : String → String × Nat) (files : Store) :
    (cli_main_run none topic pages1 instructions1 orch1 files).2.1
      = (cli_main_run none topic pages2 instructions2 orch2
          (cli_main_run none topic pages1 instructions1 orch1 files).1).2.1
    ∧ store_get (cli_main_run none topic pages2 instructions2 orch2
          (cli_main_run none topic pages1 instructions1 orch1 files).1).1
        (cli_output_filename none topic)
      = some (orch2 (task_prompt topic pages2 instructions2)).1 := by
  constructor
  · rfl
  · simp [cli_main_run, store_set, store_get]

/-- C10: every invocation of the web generate_essay unconditionally
overwrites the OPENAI_API_KEY environment variable of the whole process with
the caller-supplied key, and does so before the society is constructed. -/
theorem c10_env_mutation (essaysDir api_key topic : String) (pages : Int)
    (instructions : String) (t : Tm) (orch : String → String × Nat) (env : Store) :
    (generate_essay essaysDir api_key topic pages instructions t orch).2.head?
      = some (Ev.envSet "OPENAI_API_KEY" api_key)
    ∧ (generate_essay essaysDir api_key topic pages instructions t orch).2[1]?
      = some (Ev.constructSociety (task_prompt topic pages instructions))
    ∧ store_get (run_env_events env
        (generate_essay essaysDir api_key topic pages instructions t orch).2) "OPENAI_API_KEY"
      = some api_key := by
  refine ⟨rfl, rfl, ?_⟩
  simp [generate_essay, run_env_events, store_set, store_get]
